import Mathlib

/-
Shallow embedding of src/backend/main.py, the single-endpoint
"AI-Powered Menu Intelligence Widget" backend.

The hard part of the program is the request handler generate_item_details:
input validation, a two-iteration retry loop over an external HTTP
provider, a rate-limit backoff retry, several locally synthesized fallback
results, and JSON post-validation with 30-word truncation.

The external provider is modelled as an oracle mapping the index of each
outbound HTTP POST to its outcome.  The outcome carries the information
the handler actually inspects: the HTTP status on error, a transport
failure, or, on HTTP success, the result of extracting and JSON-parsing
the completion content.  time.sleep and the outbound calls are recorded in
an event trace.  random.uniform(0, 0.25) is modelled by a rational
parameter, constrained by hypotheses where a claim needs the bound.
Python exceptions escaping the handler body are modelled by an error type
matching the except clauses of the outer handler.
-/

set_option autoImplicit false

namespace MenuWidget

/-- A JSON value, the result of json.loads on the provider content. -/
inductive JsonVal where
  | jnull
  | jbool (b : Bool)
  | jnum (n : Int)
  | jstr (s : String)
  | jarr (elems : List JsonVal)
  | jobj (fields : List (String × JsonVal))

/-- Python dict membership and access for a parsed JSON object, first
match in the association list. -/
def lookupField : List (String × JsonVal) → String → Option JsonVal
  | [], _ => none
  | (k, v) :: rest, key => if k = key then some v else lookupField rest key

/-- The outcome of one outbound POST to the provider, as observed by the
handler.  httpErr is raise_for_status raising requests HTTPError with the
given status.  netErr is any other requests RequestException (timeout,
connection failure, or a non-JSON HTTP body).  okMissingEnvelope is an
HTTP success whose JSON body lacks the choices/message/content envelope
keys, so the extraction raises KeyError.  okContent carries the result of
json.loads on the stripped content string (none = JSONDecodeError). -/
inductive ProviderResp where
  | httpErr (status : Nat)
  | netErr
  | okMissingEnvelope
  | okContent (parsed : Option JsonVal)

/-- Observable events of one request: outbound calls (with the model id
sent in the payload) and sleeps (duration in seconds). -/
inductive Event where
  | call (model : String)
  | sleep (duration : ℚ)
deriving DecidableEq

/-- A Python exception escaping the handler body, classified the way the
outer except clauses of generate_item_details classify it. -/
inductive PyErr where
  | httpError (status : Nat)
  | requestException
  | other
deriving DecidableEq

/-- The request body after pydantic validation. -/
structure MenuItemRequest where
  item_name : String
  model_version : String
deriving DecidableEq

/-- The response model; success defaults to true and is never overridden
anywhere in the source. -/
structure MenuItemResponse where
  description : String
  upsell_suggestion : String
  model_used : String
  success : Bool := true
deriving DecidableEq

/-- Validator for item_name: reject falsy or whitespace-only input, strip,
remove the characters < > " and the two quote characters (codes 34 and
39), then bound the SANITIZED length to 2..100. -/
def isForbiddenChar (c : Char) : Bool :=
  c == '<' || c == '>' || c.toNat == 34 || c.toNat == 39

/-- Python str.strip(): drop whitespace from both ends. -/
def pyStrip (s : String) : String :=
  String.mk (((s.data.dropWhile Char.isWhitespace).reverse.dropWhile Char.isWhitespace).reverse)

/-- re.sub applied to v.strip(): trim whitespace, then drop forbidden
characters. -/
def sanitizeName (v : String) : String :=
  String.mk ((pyStrip v).data.filter (fun c => !(isForbiddenChar c)))

/-- MenuItemRequest.validate_item_name. -/
def validate_item_name (v : String) : Except String String :=
  if v = "" ∨ pyStrip v = "" then Except.error "Item name cannot be empty"
  else
    let sanitized := sanitizeName v
    if sanitized.length > 100 then
      Except.error "Item name too long (max 100 characters)"
    else if sanitized.length < 2 then
      Except.error "Item name too short (min 2 characters)"
    else Except.ok sanitized

/-- MenuItemRequest.validate_model_version. -/
def validate_model_version (v : String) : Except String String :=
  if v = "gpt-3.5-turbo" ∨ v = "gpt-4" then Except.ok v
  else Except.error "Model version must be one of: gpt-3.5-turbo, gpt-4"

/-- The canned mock result returned when no API key is configured.  The
model_used string is the literal from the source, not derived from the
requested model_version. -/
def mockResponse : MenuItemResponse :=
  { description :=
      "A delicious fusion of authentic Indian spices and premium cheese on crispy crust."
  , upsell_suggestion := "Pair it with a refreshing Mango Lassi!"
  , model_used := "mock-gpt-3.5-turbo"
  , success := true }

/-- Fallback returned when the rate-limit retry also fails. -/
def rateLimitFallback (body : MenuItemRequest) (model_used : String) : MenuItemResponse :=
  { description :=
      body.item_name ++
        ": Crafted with fresh ingredients and balanced spices, highlighting inviting textures and aromatic flavor. Perfect for quick cravings and sharing."
  , upsell_suggestion := "Pair it with a refreshing Mango Lassi!"
  , model_used := model_used ++ " (rate-limit-fallback)"
  , success := true }

/-- Fallback returned for an HTTP error that is neither the premium-404
downgrade case nor a 429. -/
def apiFallback (body : MenuItemRequest) (model_used : String) : MenuItemResponse :=
  { description :=
      body.item_name ++
        ": Crafted with fresh ingredients and balanced spices, delivering inviting textures and satisfying flavor."
  , upsell_suggestion := "Pair it with a refreshing Mango Lassi!"
  , model_used := model_used ++ " (api-fallback)"
  , success := true }

/-- Fallback returned for a non-HTTP requests RequestException. -/
def networkFallback (body : MenuItemRequest) (model_used : String) : MenuItemResponse :=
  { description :=
      body.item_name ++
        ": Crafted with fresh ingredients and balanced spices, delivering inviting textures and satisfying flavor."
  , upsell_suggestion := "Pair it with a refreshing Mango Lassi!"
  , model_used := model_used ++ " (network-fallback)"
  , success := true }

/-- Generic fallback for a malformed provider content; note it tags the
ORIGINALLY requested model_version, not the model of the final attempt. -/
def genericFallback (body : MenuItemRequest) : MenuItemResponse :=
  { description :=
      "A delicious dish prepared with fresh ingredients and authentic flavors."
  , upsell_suggestion := "Pair it with a refreshing beverage!"
  , model_used := body.model_version ++ " (fallback)"
  , success := true }

/-- Helper for pySplit: walk the characters, accumulating the current
word reversed; whitespace ends a word, runs of whitespace yield nothing. -/
def pySplitAux : List Char → List Char → List String
  | [], acc => if acc.isEmpty then [] else [String.mk acc.reverse]
  | c :: cs, acc =>
    if c.isWhitespace then
      if acc.isEmpty then pySplitAux cs []
      else String.mk acc.reverse :: pySplitAux cs []
    else pySplitAux cs (c :: acc)

/-- description.split() in Python: split on whitespace runs, dropping
empty pieces. -/
def pySplit (s : String) : List String :=
  pySplitAux s.data []

/-- The 30-word cap applied to the description after a successful parse:
if over 30 words, keep the first 30 and rejoin with single spaces,
otherwise pass the string through unmodified. -/
def truncateDescription (description : String) : String :=
  if (pySplit description).length > 30 then
    String.intercalate " " ((pySplit description).take 30)
  else description

/-- The post-loop section of the handler: json.loads the content, check it
is a dict with both required fields, truncate the description, build the
response.  json.JSONDecodeError and ValueError are caught and mapped to
genericFallback.  A non-string description raises AttributeError at
description.split(), which the except clause does not catch, so it escapes
(PyErr.other).  A non-string upsell_suggestion follows the caught
ValueError path (pydantic ValidationError is a ValueError; the pydantic
coercion of plain scalars to str is approximated by this same path, which
no claim depends on). -/
def parseSection (body : MenuItemRequest) (model_used : String)
    (parsed : Option JsonVal) : Except PyErr MenuItemResponse :=
  match parsed with
  | none => Except.ok (genericFallback body)
  | some (JsonVal.jobj fields) =>
    match lookupField fields "description", lookupField fields "upsell_suggestion" with
    | some d, some u =>
      match d with
      | JsonVal.jstr ds =>
        match u with
        | JsonVal.jstr us =>
          Except.ok
            { description := truncateDescription ds
            , upsell_suggestion := us
            , model_used := model_used
            , success := true }
        | _ => Except.ok (genericFallback body)
      | _ => Except.error PyErr.other
    | _, _ => Except.ok (genericFallback body)
  | some _ => Except.ok (genericFallback body)

/-- The inner rate-limit handling: time.sleep(0.5 + random.uniform(0, 0.25)),
then one more POST with the same payload inside try/except Exception.  A
successful content extraction breaks out of the loop into the parse
section; ANY exception (HTTP error of any status, transport error, or the
KeyError from a missing envelope) yields the rate-limit fallback. -/
def rateLimitRetry (body : MenuItemRequest) (oracle : Nat → ProviderResp)
    (jitter : ℚ) (callIdx : Nat) (model_used : String) :
    List Event × Except PyErr MenuItemResponse :=
  let evs := [Event.sleep (1/2 + jitter), Event.call model_used]
  match oracle callIdx with
  | ProviderResp.okContent p => (evs, parseSection body model_used p)
  | _ => (evs, Except.ok (rateLimitFallback body model_used))

/-- The for loop over range(2).  fuel is the number of remaining loop
iterations; callIdx indexes the oracle; model_used is the mutable loop
variable.  The fuel-exhausted case models the NameError on the unbound
ai_response if the loop were to finish without break (unreachable, since
only the premium-404 branch continues and it also downgrades model_used);
NameError is uncaught inside the body, hence PyErr.other. -/
def runLoop (body : MenuItemRequest) (oracle : Nat → ProviderResp) (jitter : ℚ) :
    Nat → Nat → String → List Event × Except PyErr MenuItemResponse
  | 0, _, _ => ([], Except.error PyErr.other)
  | fuel + 1, callIdx, model_used =>
    match oracle callIdx with
    | ProviderResp.okContent p =>
      ([Event.call model_used], parseSection body model_used p)
    | ProviderResp.okMissingEnvelope =>
      ([Event.call model_used], Except.error PyErr.other)
    | ProviderResp.netErr =>
      ([Event.call model_used], Except.ok (networkFallback body model_used))
    | ProviderResp.httpErr status =>
      if status = 404 ∧ model_used = "gpt-4" then
        let rest := runLoop body oracle jitter fuel (callIdx + 1) "gpt-3.5-turbo"
        (Event.call model_used :: rest.1, rest.2)
      else if status = 429 then
        let rest := rateLimitRetry body oracle jitter (callIdx + 1) model_used
        (Event.call model_used :: rest.1, rest.2)
      else
        ([Event.call model_used], Except.ok (apiFallback body model_used))

/-- Truthiness of the OPENAI_API_KEY environment value: unset or empty is
falsy. -/
def keyConfigured : Option String → Bool
  | none => false
  | some s => !(s == "")

/-- The body of generate_item_details after validation: mock path when no
key is configured, otherwise the two-iteration retry loop starting from
the requested model. -/
def generate_item_details (apiKey : Option String) (body : MenuItemRequest)
    (oracle : Nat → ProviderResp) (jitter : ℚ) :
    List Event × Except PyErr MenuItemResponse :=
  if keyConfigured apiKey = false then
    ([], Except.ok mockResponse)
  else
    runLoop body oracle jitter 2 0 body.model_version

/-- The outer except clauses: HTTPError maps to 429 or 503, any other
RequestException to 503, anything else to 500. -/
def outerHandlers : PyErr → Nat
  | PyErr.httpError s => if s = 429 then 429 else 503
  | PyErr.requestException => 503
  | PyErr.other => 500

/-- The HTTP status the endpoint answers with: 200 when the body returns a
response, else whatever the outer except clauses produce. -/
def endpointStatus (apiKey : Option String) (body : MenuItemRequest)
    (oracle : Nat → ProviderResp) (jitter : ℚ) : Nat :=
  match (generate_item_details apiKey body oracle jitter).2 with
  | Except.ok _ => 200
  | Except.error e => outerHandlers e

/-- Number of outbound HTTP calls in a trace. -/
def countCalls (evs : List Event) : Nat :=
  (evs.filter (fun e => match e with | Event.call _ => true | _ => false)).length

/-- The malformed-content condition of the parse section: json.loads
fails, or the value is not an object, or a required field is missing. -/
def badParse : Option JsonVal → Bool
  | none => true
  | some (JsonVal.jobj fields) =>
    !((lookupField fields "description").isSome
        && (lookupField fields "upsell_suggestion").isSome)
  | some _ => true

/-- A provider outcome that raises an exception before content is
extracted: exactly what the inner except Exception of the rate-limit
retry catches. -/
def isFailureResp : ProviderResp → Bool
  | ProviderResp.okContent _ => false
  | _ => true

/-- Concrete inputs used by counterexamples and witnesses. -/
def standardBody : MenuItemRequest :=
  { item_name := "Masala Dosa", model_version := "gpt-3.5-turbo" }

def premiumBody : MenuItemRequest :=
  { item_name := "Paneer Tikka", model_version := "gpt-4" }

def netErrOracle : Nat → ProviderResp := fun _ => ProviderResp.netErr

def missingEnvelopeOracle : Nat → ProviderResp := fun _ => ProviderResp.okMissingEnvelope

def rateLimitOracle : Nat → ProviderResp := fun _ => ProviderResp.httpErr 429

def notFoundOracle : Nat → ProviderResp := fun _ => ProviderResp.httpErr 404

def malformedOracle : Nat → ProviderResp := fun _ => ProviderResp.okContent none

def downgradeThenRateLimit : Nat → ProviderResp
  | 0 => ProviderResp.httpErr 404
  | _ => ProviderResp.httpErr 429

def downgradeThenMalformed : Nat → ProviderResp
  | 0 => ProviderResp.httpErr 404
  | _ => ProviderResp.okContent none

/-- A well-formed parsed provider content with a 31-word description. -/
def goodFields : List (String × JsonVal) :=
  [("description", JsonVal.jstr (String.intercalate " " (List.replicate 31 "spiced"))),
   ("upsell_suggestion", JsonVal.jstr "Pair it with filter coffee!")]

def goodOracle : Nat → ProviderResp :=
  fun _ => ProviderResp.okContent (some (JsonVal.jobj goodFields))

def downgradeThenGood : Nat → ProviderResp
  | 0 => ProviderResp.httpErr 404
  | _ => ProviderResp.okContent (some (JsonVal.jobj goodFields))

/-- A 101-character raw name whose sanitized form has 100 characters:
one leading single-quote character followed by 100 letters. -/
def overlongQuotedName : String := String.mk (Char.ofNat 39 :: List.replicate 100 'a')

/-- Helper lemmas about the embedding, shared by several claims. -/
theorem countCalls_nil : countCalls [] = 0 := rfl

theorem countCalls_call (m : String) (l : List Event) :
    countCalls (Event.call m :: l) = countCalls l + 1 := by
  simp [countCalls, List.filter]

theorem countCalls_sleep (q : ℚ) (l : List Event) :
    countCalls (Event.sleep q :: l) = countCalls l := by
  simp [countCalls, List.filter]

theorem sanitizeName_of_strip_empty (v : String) (h : pyStrip v = "") :
    sanitizeName v = "" := by
  unfold sanitizeName
  rw [h]
  rfl

/-- Claim C2 counterexample: with no credential and a premium-tier
request, the mock result is returned, but its model_used is the literal
mock-gpt-3.5-turbo, not mock-gpt-4 derived from the requested tier. -/
theorem C2_mock_tag_counterexample :
    (generate_item_details none premiumBody netErrOracle 0).2 = Except.ok mockResponse
    ∧ premiumBody.model_version = "gpt-4"
    ∧ mockResponse.model_used = "mock-gpt-3.5-turbo"
    ∧ ¬ mockResponse.model_used = "mock-" ++ premiumBody.model_version :=
  ⟨rfl, rfl, rfl, by decide⟩

/-- Claim C2 (amended): for every valid request with no configured
provider credential, no network call is made and the result is the fixed
mock response, whose model_used is the constant mock-gpt-3.5-turbo
regardless of the requested tier. -/
theorem C2_mock_fixed_result (apiKey : Option String) (body : MenuItemRequest)
    (oracle : Nat → ProviderResp) (jitter : ℚ)
    (hkey : keyConfigured apiKey = false) :
    generate_item_details apiKey body oracle jitter = ([], Except.ok mockResponse)
    ∧ countCalls (generate_item_details apiKey body oracle jitter).1 = 0
    ∧ mockResponse.model_used = "mock-gpt-3.5-turbo"
    ∧ mockResponse.success = true := by
  refine ⟨?_, ?_, rfl, rfl⟩ <;> simp [generate_item_details, hkey, countCalls]

/-- Claim C2 witness: the amended statement evaluated with no key and a
premium-tier request. -/
theorem C2_mock_fixed_result_witness :
    generate_item_details none premiumBody netErrOracle 0 = ([], Except.ok mockResponse)
    ∧ countCalls (generate_item_details none premiumBody netErrOracle 0).1 = 0
    ∧ mockResponse.model_used = "mock-gpt-3.5-turbo"
    ∧ mockResponse.success = true :=
  C2_mock_fixed_result none premiumBody netErrOracle 0 rfl

/-- Claim C7 counterexample: a raw name of 101 characters containing one
forbidden quote character is ACCEPTED, because the over-100 length check
runs on the sanitized name (100 characters), not on the original; the
claim says names originally over 100 characters are rejected. -/
theorem C7_length_check_counterexample :
    overlongQuotedName.length = 101
    ∧ validate_item_name overlongQuotedName
        = Except.ok (String.mk (List.replicate 100 'a'))
    ∧ (String.mk (List.replicate 100 'a')).length = 100 :=
  ⟨by decide, rfl, by decide⟩

/-- Claim C7 (amended): validation strips surrounding whitespace and
removes the four forbidden characters; the request is rejected exactly
when the SANITIZED result has fewer than 2 or more than 100 characters
(emptiness is subsumed by the under-2 case); an accepted name returns the
sanitized form, which is what flows into prompt construction. -/
theorem C7_validation (v s : String) :
    validate_item_name v = Except.ok s ↔
      s = sanitizeName v ∧ 2 ≤ s.length ∧ s.length ≤ 100 := by
  unfold validate_item_name
  constructor
  · intro h
    by_cases h1 : v = "" ∨ pyStrip v = ""
    · rw [if_pos h1] at h
      exact absurd h (by simp)
    · rw [if_neg h1] at h
      by_cases h2 : (sanitizeName v).length > 100
      · rw [if_pos h2] at h
        exact absurd h (by simp)
      · rw [if_neg h2] at h
        by_cases h3 : (sanitizeName v).length < 2
        · rw [if_pos h3] at h
          exact absurd h (by simp)
        · rw [if_neg h3] at h
          injection h with h
          subst h
          exact ⟨rfl, by omega, by omega⟩
  · rintro ⟨rfl, h2, h3⟩
    have hne : ¬ (v = "" ∨ pyStrip v = "") := by
      rintro (rfl | hstrip)
      · have : sanitizeName "" = "" := sanitizeName_of_strip_empty "" rfl
        rw [this] at h2
        exact absurd h2 (by decide)
      · have := sanitizeName_of_strip_empty v hstrip
        rw [this] at h2
        exact absurd h2 (by decide)
    rw [if_neg hne, if_neg (by omega), if_neg (by omega)]

/-- Claim C7 witness: the amended statement evaluated on a concrete name
containing forbidden characters and surrounding whitespace. -/
theorem C7_validation_witness :
    validate_item_name "  <Masala> Dosa  " = Except.ok "Masala Dosa" ↔
      "Masala Dosa" = sanitizeName "  <Masala> Dosa  "
      ∧ 2 ≤ "Masala Dosa".length ∧ "Masala Dosa".length ≤ 100 :=
  C7_validation "  <Masala> Dosa  " "Masala Dosa"

/-- A malformed parsed content always yields the generic fallback. -/
theorem parseSection_badParse (body : MenuItemRequest) (m : String) (p : Option JsonVal)
    (hbad : badParse p = true) :
    parseSection body m p = Except.ok (genericFallback body) := by
  match p with
  | none => rfl
  | some JsonVal.jnull => rfl
  | some (JsonVal.jbool b) => rfl
  | some (JsonVal.jnum n) => rfl
  | some (JsonVal.jstr s) => rfl
  | some (JsonVal.jarr el) => rfl
  | some (JsonVal.jobj fields) =>
    unfold parseSection
    cases hd : lookupField fields "description" <;>
      cases hu : lookupField fields "upsell_suggestion" <;>
        simp_all [badParse]

/-- A well-formed parsed content yields the truncated description, the
unmodified upsell suggestion and the model of the final attempt. -/
theorem parseSection_wellFormed (body : MenuItemRequest) (m : String)
    (fields : List (String × JsonVal)) (d u : String)
    (hd : lookupField fields "description" = some (JsonVal.jstr d))
    (hu : lookupField fields "upsell_suggestion" = some (JsonVal.jstr u)) :
    parseSection body m (some (JsonVal.jobj fields)) =
      Except.ok
        { description := truncateDescription d
        , upsell_suggestion := u
        , model_used := m
        , success := true } := by
  simp only [parseSection]
  rw [hd, hu]

/-- Claim C5: any provider content that fails to parse, parses to a
non-object, or lacks a required field is absorbed into the generic canned
fallback tagged (fallback); no exception is raised. -/
theorem C5_malformed_content_fallback (apiKey : Option String) (body : MenuItemRequest)
    (oracle : Nat → ProviderResp) (jitter : ℚ) (p : Option JsonVal)
    (hkey : keyConfigured apiKey = true)
    (h0 : oracle 0 = ProviderResp.okContent p)
    (hbad : badParse p = true) :
    (generate_item_details apiKey body oracle jitter).2 = Except.ok (genericFallback body)
    ∧ (genericFallback body).model_used = body.model_version ++ " (fallback)"
    ∧ (genericFallback body).success = true := by
  refine ⟨?_, rfl, rfl⟩
  simp [generate_item_details, hkey, runLoop, h0, parseSection_badParse body _ p hbad]

/-- Claim C5 witness: a content string that is not valid JSON. -/
theorem C5_malformed_content_fallback_witness :
    (generate_item_details (some "k") standardBody malformedOracle 0).2
      = Except.ok (genericFallback standardBody)
    ∧ (genericFallback standardBody).model_used
        = standardBody.model_version ++ " (fallback)"
    ∧ (genericFallback standardBody).success = true :=
  C5_malformed_content_fallback (some "k") standardBody malformedOracle 0 none rfl rfl rfl

/-- Claim C6: for a well-formed provider content, a description over 30
whitespace-separated words is replaced by its first 30 words rejoined with
single spaces, a description of at most 30 words passes through untouched,
and the upsell suggestion always passes through unmodified. -/
theorem C6_description_truncation (apiKey : Option String) (body : MenuItemRequest)
    (oracle : Nat → ProviderResp) (jitter : ℚ)
    (fields : List (String × JsonVal)) (d u : String)
    (hkey : keyConfigured apiKey = true)
    (h0 : oracle 0 = ProviderResp.okContent (some (JsonVal.jobj fields)))
    (hd : lookupField fields "description" = some (JsonVal.jstr d))
    (hu : lookupField fields "upsell_suggestion" = some (JsonVal.jstr u)) :
    (generate_item_details apiKey body oracle jitter).2 =
      Except.ok
        { description := truncateDescription d
        , upsell_suggestion := u
        , model_used := body.model_version
        , success := true }
    ∧ ((pySplit d).length > 30 →
        truncateDescription d = String.intercalate " " ((pySplit d).take 30))
    ∧ ((pySplit d).length ≤ 30 → truncateDescription d = d) := by
  refine ⟨?_, ?_, ?_⟩
  · simp [generate_item_details, hkey, runLoop, h0,
      parseSection_wellFormed body _ fields d u hd hu]
  · intro hlong
    simp [truncateDescription, hlong]
  · intro hshort
    simp [truncateDescription]
    omega

/-- Claim C6 witness: a 31-word description is cut to its first 30 words. -/
theorem C6_description_truncation_witness :
    (generate_item_details (some "k") standardBody goodOracle 0).2 =
      Except.ok
        { description :=
            truncateDescription (String.intercalate " " (List.replicate 31 "spiced"))
        , upsell_suggestion := "Pair it with filter coffee!"
        , model_used := standardBody.model_version
        , success := true }
    ∧ ((pySplit (String.intercalate " " (List.replicate 31 "spiced"))).length > 30 →
        truncateDescription (String.intercalate " " (List.replicate 31 "spiced"))
          = String.intercalate " "
              ((pySplit (String.intercalate " " (List.replicate 31 "spiced"))).take 30))
    ∧ ((pySplit (String.intercalate " " (List.replicate 31 "spiced"))).length ≤ 30 →
        truncateDescription (String.intercalate " " (List.replicate 31 "spiced"))
          = String.intercalate " " (List.replicate 31 "spiced")) :=
  C6_description_truncation (some "k") standardBody goodOracle 0 goodFields
    (String.intercalate " " (List.replicate 31 "spiced"))
    "Pair it with filter coffee!" rfl rfl rfl rfl

/-- Claim C3: when the first provider call fails with HTTP 429, the trace
is exactly one call, one sleep of 0.5 plus the jitter sample (so between
0.5 and 0.75 seconds), and one retry call with the same model — two calls
in total, whatever the retry returns.  If the retry fails in any way
caught by the inner handler, no exception is raised and the result is the
locally synthesized rate-limit fallback with success true. -/
theorem C3_rate_limit_backoff (apiKey : Option String) (body : MenuItemRequest)
    (oracle : Nat → ProviderResp) (jitter : ℚ)
    (hkey : keyConfigured apiKey = true)
    (h0 : oracle 0 = ProviderResp.httpErr 429)
    (hj : 0 ≤ jitter ∧ jitter ≤ 1/4) :
    (generate_item_details apiKey body oracle jitter).1
      = [Event.call body.model_version, Event.sleep (1/2 + jitter),
         Event.call body.model_version]
    ∧ countCalls (generate_item_details apiKey body oracle jitter).1 = 2
    ∧ (1/2 : ℚ) ≤ 1/2 + jitter ∧ (1/2 + jitter : ℚ) ≤ 3/4
    ∧ (isFailureResp (oracle 1) = true →
        (generate_item_details apiKey body oracle jitter).2
          = Except.ok (rateLimitFallback body body.model_version)
        ∧ (rateLimitFallback body body.model_version).model_used
            = body.model_version ++ " (rate-limit-fallback)"
        ∧ (rateLimitFallback body body.model_version).success = true) := by
  obtain ⟨hj0, hj1⟩ := hj
  refine ⟨?_, ?_, by linarith, by linarith, ?_⟩
  · cases h1 : oracle 1 <;>
      simp [generate_item_details, hkey, runLoop, rateLimitRetry, h0, h1]
  · cases h1 : oracle 1 <;>
      simp [generate_item_details, hkey, runLoop, rateLimitRetry, h0, h1,
        countCalls, List.filter]
  · intro hfail
    refine ⟨?_, rfl, rfl⟩
    cases h1 : oracle 1
    case okContent p => simp [isFailureResp, h1] at hfail
    all_goals simp [generate_item_details, hkey, runLoop, rateLimitRetry, h0, h1]

/-- Claim C3 witness: a request that is rate limited on both attempts,
with jitter sample 0. -/
theorem C3_rate_limit_backoff_witness :
    (generate_item_details (some "k") standardBody rateLimitOracle 0).1
      = [Event.call standardBody.model_version, Event.sleep (1/2 + 0),
         Event.call standardBody.model_version]
    ∧ countCalls (generate_item_details (some "k") standardBody rateLimitOracle 0).1 = 2
    ∧ (1/2 : ℚ) ≤ 1/2 + 0 ∧ (1/2 + 0 : ℚ) ≤ 3/4
    ∧ (isFailureResp (rateLimitOracle 1) = true →
        (generate_item_details (some "k") standardBody rateLimitOracle 0).2
          = Except.ok (rateLimitFallback standardBody standardBody.model_version)
        ∧ (rateLimitFallback standardBody standardBody.model_version).model_used
            = standardBody.model_version ++ " (rate-limit-fallback)"
        ∧ (rateLimitFallback standardBody standardBody.model_version).success = true) :=
  C3_rate_limit_backoff (some "k") standardBody rateLimitOracle 0 rfl rfl
    ⟨by norm_num, by norm_num⟩

/-- Claim C4: a premium-tier request whose first call returns HTTP 404 is
retried exactly once with the standard tier; if that retry also returns
404 the result is the api-fallback tagged on the downgraded model, with no
third call; a standard-tier request answered 404 triggers no downgrade at
all, just the api-fallback after a single call. -/
theorem C4_model_downgrade (apiKey : Option String) (body body2 : MenuItemRequest)
    (oracle oracle2 : Nat → ProviderResp) (jitter : ℚ)
    (hkey : keyConfigured apiKey = true)
    (hm : body.model_version = "gpt-4")
    (h0 : oracle 0 = ProviderResp.httpErr 404)
    (h1 : oracle 1 = ProviderResp.httpErr 404)
    (hm2 : body2.model_version = "gpt-3.5-turbo")
    (h20 : oracle2 0 = ProviderResp.httpErr 404) :
    (generate_item_details apiKey body oracle jitter).1
      = [Event.call "gpt-4", Event.call "gpt-3.5-turbo"]
    ∧ (generate_item_details apiKey body oracle jitter).2
      = Except.ok (apiFallback body "gpt-3.5-turbo")
    ∧ (apiFallback body "gpt-3.5-turbo").model_used = "gpt-3.5-turbo (api-fallback)"
    ∧ (generate_item_details apiKey body2 oracle2 jitter).1
      = [Event.call "gpt-3.5-turbo"]
    ∧ (generate_item_details apiKey body2 oracle2 jitter).2
      = Except.ok (apiFallback body2 "gpt-3.5-turbo") := by
  refine ⟨?_, ?_, rfl, ?_, ?_⟩
  all_goals simp [generate_item_details, hkey, runLoop, h0, h1, h20, hm, hm2]

/-- Claim C4 witness: both attempts 404 on a premium request, and one 404
on a standard request. -/
theorem C4_model_downgrade_witness :
    (generate_item_details (some "k") premiumBody notFoundOracle 0).1
      = [Event.call "gpt-4", Event.call "gpt-3.5-turbo"]
    ∧ (generate_item_details (some "k") premiumBody notFoundOracle 0).2
      = Except.ok (apiFallback premiumBody "gpt-3.5-turbo")
    ∧ (apiFallback premiumBody "gpt-3.5-turbo").model_used
      = "gpt-3.5-turbo (api-fallback)"
    ∧ (generate_item_details (some "k") standardBody notFoundOracle 0).1
      = [Event.call "gpt-3.5-turbo"]
    ∧ (generate_item_details (some "k") standardBody notFoundOracle 0).2
      = Except.ok (apiFallback standardBody "gpt-3.5-turbo") :=
  C4_model_downgrade (some "k") premiumBody standardBody notFoundOracle notFoundOracle
    0 rfl rfl rfl rfl rfl rfl

/-- Claim C9: after a premium-to-standard downgrade, a malformed content
from the standard tier is tagged with the ORIGINALLY requested model,
gpt-4 (fallback), while an authentic success after the same downgrade is
tagged with the downgraded model gpt-3.5-turbo and no suffix. -/
theorem C9_fallback_tag_uses_requested_model (apiKey : Option String)
    (body : MenuItemRequest) (oracle oracle2 : Nat → ProviderResp) (jitter : ℚ)
    (p : Option JsonVal) (fields : List (String × JsonVal)) (d u : String)
    (hkey : keyConfigured apiKey = true)
    (hm : body.model_version = "gpt-4")
    (h0 : oracle 0 = ProviderResp.httpErr 404)
    (h1 : oracle 1 = ProviderResp.okContent p)
    (hbad : badParse p = true)
    (h20 : oracle2 0 = ProviderResp.httpErr 404)
    (h21 : oracle2 1 = ProviderResp.okContent (some (JsonVal.jobj fields)))
    (hd : lookupField fields "description" = some (JsonVal.jstr d))
    (hu : lookupField fields "upsell_suggestion" = some (JsonVal.jstr u)) :
    (generate_item_details apiKey body oracle jitter).2
      = Except.ok (genericFallback body)
    ∧ (genericFallback body).model_used = "gpt-4 (fallback)"
    ∧ (generate_item_details apiKey body oracle2 jitter).2
      = Except.ok
          { description := truncateDescription d
          , upsell_suggestion := u
          , model_used := "gpt-3.5-turbo"
          , success := true } := by
  refine ⟨?_, by simp [genericFallback, hm], ?_⟩
  · simp [generate_item_details, hkey, runLoop, h0, h1, hm,
      parseSection_badParse body _ p hbad]
  · simp [generate_item_details, hkey, runLoop, h20, h21, hm,
      parseSection_wellFormed body _ fields d u hd hu]

/-- Claim C9 witness: downgrade then malformed content, and downgrade then
a well-formed content. -/
theorem C9_fallback_tag_witness :
    (generate_item_details (some "k") premiumBody downgradeThenMalformed 0).2
      = Except.ok (genericFallback premiumBody)
    ∧ (genericFallback premiumBody).model_used = "gpt-4 (fallback)"
    ∧ (generate_item_details (some "k") premiumBody downgradeThenGood 0).2
      = Except.ok
          { description :=
              truncateDescription (String.intercalate " " (List.replicate 31 "spiced"))
          , upsell_suggestion := "Pair it with filter coffee!"
          , model_used := "gpt-3.5-turbo"
          , success := true } :=
  C9_fallback_tag_uses_requested_model (some "k") premiumBody downgradeThenMalformed
    downgradeThenGood 0 none goodFields
    (String.intercalate " " (List.replicate 31 "spiced"))
    "Pair it with filter coffee!" rfl rfl rfl rfl rfl rfl rfl rfl rfl

/-- Every response built by the parse section has success true. -/
theorem parseSection_ok_success (body : MenuItemRequest) (m : String) (p : Option JsonVal)
    (r : MenuItemResponse) (h : parseSection body m p = Except.ok r) : r.success = true := by
  unfold parseSection at h
  repeat' split at h
  all_goals cases h
  all_goals rfl

/-- The only exception the parse section lets escape is the uncaught
AttributeError. -/
theorem parseSection_error (body : MenuItemRequest) (m : String) (p : Option JsonVal)
    (e : PyErr) (h : parseSection body m p = Except.error e) : e = PyErr.other := by
  unfold parseSection at h
  repeat' split at h
  all_goals cases h
  all_goals rfl

/-- Every response built by the rate-limit retry has success true. -/
theorem rateLimitRetry_ok_success (body : MenuItemRequest) (oracle : Nat → ProviderResp)
    (jitter : ℚ) (c : Nat) (m : String) (r : MenuItemResponse)
    (h : (rateLimitRetry body oracle jitter c m).2 = Except.ok r) : r.success = true := by
  cases ho : oracle c
  case okContent p =>
    simp [rateLimitRetry, ho] at h
    exact parseSection_ok_success _ _ _ _ h
  all_goals
    simp [rateLimitRetry, ho] at h
    subst h
    rfl

/-- The only exception escaping the rate-limit retry comes from the parse
section. -/
theorem rateLimitRetry_error (body : MenuItemRequest) (oracle : Nat → ProviderResp)
    (jitter : ℚ) (c : Nat) (m : String) (e : PyErr)
    (h : (rateLimitRetry body oracle jitter c m).2 = Except.error e) : e = PyErr.other := by
  cases ho : oracle c
  case okContent p =>
    simp [rateLimitRetry, ho] at h
    exact parseSection_error _ _ _ _ h
  all_goals simp [rateLimitRetry, ho] at h

/-- The rate-limit retry issues exactly one outbound call. -/
theorem rateLimitRetry_countCalls (body : MenuItemRequest) (oracle : Nat → ProviderResp)
    (jitter : ℚ) (c : Nat) (m : String) :
    countCalls (rateLimitRetry body oracle jitter c m).1 = 1 := by
  cases ho : oracle c <;> simp [rateLimitRetry, ho, countCalls, List.filter]

/-- Every response escaping the retry loop has success true. -/
theorem runLoop_ok_success (body : MenuItemRequest) (oracle : Nat → ProviderResp)
    (jitter : ℚ) :
    ∀ (fuel c : Nat) (m : String) (r : MenuItemResponse),
      (runLoop body oracle jitter fuel c m).2 = Except.ok r → r.success = true := by
  intro fuel
  induction fuel with
  | zero =>
    intro c m r h
    simp [runLoop] at h
  | succ n ih =>
    intro c m r h
    cases ho : oracle c
    case okContent p =>
      simp [runLoop, ho] at h
      exact parseSection_ok_success _ _ _ _ h
    case okMissingEnvelope => simp [runLoop, ho] at h
    case netErr =>
      simp [runLoop, ho] at h
      subst h
      rfl
    case httpErr s =>
      by_cases h404 : s = 404 ∧ m = "gpt-4"
      · obtain ⟨rfl, rfl⟩ := h404
        simp [runLoop, ho] at h
        exact ih _ _ _ h
      · by_cases h429 : s = 429
        · subst h429
          simp [runLoop, ho, h404] at h
          exact rateLimitRetry_ok_success _ _ _ _ _ _ h
        · simp [runLoop, ho, h404, h429] at h
          subst h
          rfl

/-- The only exception escaping the retry loop is PyErr.other: requests
HTTPError and RequestException are always caught inside. -/
theorem runLoop_error (body : MenuItemRequest) (oracle : Nat → ProviderResp)
    (jitter : ℚ) :
    ∀ (fuel c : Nat) (m : String) (e : PyErr),
      (runLoop body oracle jitter fuel c m).2 = Except.error e → e = PyErr.other := by
  intro fuel
  induction fuel with
  | zero =>
    intro c m e h
    simp [runLoop] at h
    exact h.symm
  | succ n ih =>
    intro c m e h
    cases ho : oracle c
    case okContent p =>
      simp [runLoop, ho] at h
      exact parseSection_error _ _ _ _ h
    case okMissingEnvelope =>
      simp [runLoop, ho] at h
      exact h.symm
    case netErr => simp [runLoop, ho] at h
    case httpErr s =>
      by_cases h404 : s = 404 ∧ m = "gpt-4"
      · obtain ⟨rfl, rfl⟩ := h404
        simp [runLoop, ho] at h
        exact ih _ _ _ h
      · by_cases h429 : s = 429
        · subst h429
          simp [runLoop, ho, h404] at h
          exact rateLimitRetry_error _ _ _ _ _ _ h
        · simp [runLoop, ho, h404, h429] at h

/-- The retry loop with fuel iterations left issues at most fuel + 1
outbound calls (the extra one being the rate-limit retry). -/
theorem runLoop_countCalls (body : MenuItemRequest) (oracle : Nat → ProviderResp)
    (jitter : ℚ) :
    ∀ (fuel c : Nat) (m : String),
      countCalls (runLoop body oracle jitter fuel c m).1 ≤ fuel + 1 := by
  intro fuel
  induction fuel with
  | zero =>
    intro c m
    simp [runLoop, countCalls]
  | succ n ih =>
    intro c m
    cases ho : oracle c
    case httpErr s =>
      by_cases h404 : s = 404 ∧ m = "gpt-4"
      · obtain ⟨rfl, rfl⟩ := h404
        simp [runLoop, ho, countCalls_call]
        have := ih (c + 1) "gpt-3.5-turbo"
        omega
      · by_cases h429 : s = 429
        · subst h429
          simp [runLoop, ho, h404, countCalls_call, rateLimitRetry_countCalls]
        · simp [runLoop, ho, h404, h429, countCalls, List.filter]
    all_goals simp [runLoop, ho, countCalls, List.filter]

/-- Claim C1 counterexample: a premium request answered 404 and then 429
issues THREE outbound calls — the downgrade retry is itself rate limited
and retried once more — refuting the at-most-two bound. -/
theorem C1_two_call_counterexample :
    countCalls (generate_item_details (some "k") premiumBody downgradeThenRateLimit 0).1 = 3
    ∧ ¬ countCalls
        (generate_item_details (some "k") premiumBody downgradeThenRateLimit 0).1 ≤ 2 := by
  decide

/-- Claim C1 (amended): at most THREE outbound calls are ever issued, and
at most two unless the request was premium tier and the first call
returned 404: each single failure class is retried at most once, but the
model-downgrade retry composes with one rate-limit backoff retry. -/
theorem C1_call_bound (apiKey : Option String) (body : MenuItemRequest)
    (oracle : Nat → ProviderResp) (jitter : ℚ) :
    countCalls (generate_item_details apiKey body oracle jitter).1 ≤ 3
    ∧ (¬ (body.model_version = "gpt-4" ∧ oracle 0 = ProviderResp.httpErr 404) →
        countCalls (generate_item_details apiKey body oracle jitter).1 ≤ 2) := by
  constructor
  · unfold generate_item_details
    split
    · simp [countCalls]
    · exact runLoop_countCalls body oracle jitter 2 0 body.model_version
  · intro hnot
    unfold generate_item_details
    split
    · simp [countCalls]
    · cases ho : oracle 0
      case httpErr s =>
        by_cases h404 : s = 404 ∧ body.model_version = "gpt-4"
        · exact absurd ⟨h404.2, by rw [ho, h404.1]⟩ hnot
        · by_cases h429 : s = 429
          · subst h429
            simp [runLoop, ho, h404, countCalls_call, rateLimitRetry_countCalls]
          · simp [runLoop, ho, h404, h429, countCalls, List.filter]
      all_goals simp [runLoop, ho, countCalls, List.filter]

/-- Claim C1 witness: the amended bound evaluated on a standard-tier
request whose only call fails with a transport error. -/
theorem C1_call_bound_witness :
    countCalls (generate_item_details (some "k") standardBody netErrOracle 0).1 ≤ 3
    ∧ countCalls (generate_item_details (some "k") standardBody netErrOracle 0).1 ≤ 2 :=
  ⟨(C1_call_bound (some "k") standardBody netErrOracle 0).1,
   (C1_call_bound (some "k") standardBody netErrOracle 0).2
     (fun hc => ProviderResp.noConfusion hc.2)⟩

/-- Claim C8: every result returned through the normal HTTP 200 path —
mock, authentic success, or any fallback variant — has success = true. -/
theorem C8_success_always_true (apiKey : Option String) (body : MenuItemRequest)
    (oracle : Nat → ProviderResp) (jitter : ℚ) (r : MenuItemResponse)
    (h : (generate_item_details apiKey body oracle jitter).2 = Except.ok r) :
    r.success = true := by
  unfold generate_item_details at h
  split at h
  · simp at h
    subst h
    rfl
  · exact runLoop_ok_success body oracle jitter 2 0 body.model_version r h

/-- Claim C8 witness: the mock result of a credential-less request. -/
theorem C8_success_always_true_witness : mockResponse.success = true :=
  C8_success_always_true none standardBody netErrOracle 0 mockResponse rfl

/-- Claim C10: the outer HTTPError and RequestException handlers are
unreachable — every exception escaping the handler body is of the
unclassified kind, so the endpoint only ever answers 200 or 500 — and the
500 path is reachable, e.g. when a successful provider reply lacks the
choices/message envelope keys. -/
theorem C10_outer_error_paths (apiKey : Option String) (body : MenuItemRequest)
    (oracle : Nat → ProviderResp) (jitter : ℚ) :
    (∀ e, (generate_item_details apiKey body oracle jitter).2 = Except.error e →
        e = PyErr.other)
    ∧ (endpointStatus apiKey body oracle jitter = 200
        ∨ endpointStatus apiKey body oracle jitter = 500)
    ∧ endpointStatus (some "k") standardBody missingEnvelopeOracle 0 = 500 := by
  have herr : ∀ e, (generate_item_details apiKey body oracle jitter).2 = Except.error e →
      e = PyErr.other := by
    intro e h
    unfold generate_item_details at h
    split at h
    · simp at h
    · exact runLoop_error body oracle jitter 2 0 body.model_version e h
  refine ⟨herr, ?_, rfl⟩
  cases hres : (generate_item_details apiKey body oracle jitter).2 with
  | ok r =>
    left
    simp [endpointStatus, hres]
  | error e =>
    right
    simp [endpointStatus, hres, herr e hres, outerHandlers]

/-- Claim C10 witness: the general statement applied to the concrete
missing-envelope run, discharging the error-classification hypothesis. -/
theorem C10_outer_error_paths_witness :
    PyErr.other = PyErr.other
    ∧ (endpointStatus (some "k") standardBody missingEnvelopeOracle 0 = 200
        ∨ endpointStatus (some "k") standardBody missingEnvelopeOracle 0 = 500) :=
  ⟨(C10_outer_error_paths (some "k") standardBody missingEnvelopeOracle 0).1
      PyErr.other rfl,
   (C10_outer_error_paths (some "k") standardBody missingEnvelopeOracle 0).2.1⟩

end MenuWidget
